import Mathlib

/-!
Shallow embedding of the authoritative match server in
`src/Edited_Dustin/protocol.py` (class `PlayerServerProtocol`): the
multi-stage two-player platformer engine.  Python dictionaries keyed by
generated string identifiers are embedded as association lists of
`String × _`; the `players` dictionary, whose only possible keys are
`"player_black"` and `"player_white"` (constructed from the color in
`_register_player`), is embedded as two optional slots; `time.time()`
is an abstract `now : Nat` parameter; `threading.Timer(3.0,
self._load_next_stage).start()` is recorded by incrementing a counter
of pending deferred callbacks; a Python exception escaping
`proses_string` is modelled as `none`.
-/

namespace FpProgjar

inductive Color where
  | black
  | white
deriving DecidableEq, Repr

def colorStr : Color → String
  | Color.black => "black"
  | Color.white => "white"

/-- The derived player identity: `id = "player_" + color`. -/
def playerId (c : Color) : String := "player_" ++ colorStr c

structure PlayerData where
  color_type : Color
  x : Int
  y : Int
  lives : Int
  gems_collected : Nat
  at_exit : Bool
deriving DecidableEq, Repr

structure Gem where
  x : Int
  y : Int
  type : Color
deriving DecidableEq, Repr

structure Hazard where
  type : Color
  x : Int
  y : Int
  width : Int
  height : Int
deriving DecidableEq, Repr

structure Wall where
  x : Int
  y : Int
  width : Int
  height : Int
deriving DecidableEq, Repr

structure Rect where
  x : Int
  y : Int
  width : Int
  height : Int
deriving DecidableEq, Repr

/-- One catalog entry of `_define_levels`. -/
structure LevelDef where
  start_pos : List (Color × Int × Int)
  walls : List (Int × Int × Int × Int)
  hazards : List (Color × Int × Int × Int × Int)
  gems : List (Color × Int × Int)
  exit : Int × Int × Int × Int
deriving DecidableEq, Repr

def map_width : Int := 800
def map_height : Int := 600
def default_player_lives : Int := 1
def total_stages : Nat := 5

/-- The five stage definitions built by `_define_levels`. -/
def levels : List LevelDef :=
  [ { start_pos := [(Color.black, 50, 532), (Color.white, 702, 532)],
      walls := [(0, 580, 800, 20), (200, 480, 400, 20), (300, 380, 200, 20),
                (550, 280, 100, 20), (250, 180, 100, 20)],
      hazards := [(Color.white, 300, 560, 100, 20)],
      gems := [(Color.black, 250, 450), (Color.white, 500, 450),
               (Color.black, 350, 350), (Color.white, 400, 350)],
      exit := (360, 40, 80, 80) },
    { start_pos := [(Color.black, 50, 532), (Color.white, 702, 532)],
      walls := [(0, 580, 150, 20), (650, 580, 150, 20), (250, 500, 100, 20),
                (450, 500, 100, 20), (100, 400, 100, 20), (600, 400, 100, 20),
                (300, 300, 200, 20)],
      hazards := [(Color.black, 150, 560, 50, 20)],
      gems := [(Color.black, 270, 470), (Color.white, 470, 470),
               (Color.black, 120, 370), (Color.white, 620, 370),
               (Color.black, 390, 270)],
      exit := (360, 220, 80, 80) },
    { start_pos := [(Color.black, 50, 332), (Color.white, 702, 332)],
      walls := [(0, 380, 200, 20), (600, 380, 200, 20), (0, 580, 800, 20),
                (380, 480, 40, 100), (250, 250, 300, 20)],
      hazards := [(Color.white, 20, 560, 350, 20), (Color.black, 430, 560, 350, 20)],
      gems := [(Color.black, 100, 550), (Color.black, 200, 550),
               (Color.white, 600, 550), (Color.white, 700, 550),
               (Color.black, 390, 220), (Color.white, 490, 220)],
      exit := (360, 100, 80, 80) },
    { start_pos := [(Color.black, 50, 532), (Color.white, 702, 532)],
      walls := [(0, 580, 800, 20), (150, 480, 50, 20), (600, 480, 50, 20),
                (300, 400, 200, 20), (100, 300, 50, 20), (650, 300, 50, 20),
                (250, 200, 300, 20)],
      hazards := [(Color.white, 200, 560, 100, 20), (Color.black, 500, 560, 100, 20)],
      gems := [(Color.black, 160, 450), (Color.white, 610, 450),
               (Color.black, 390, 370), (Color.white, 110, 270),
               (Color.black, 660, 270)],
      exit := (360, 40, 80, 80) },
    { start_pos := [(Color.black, 30, 532), (Color.white, 722, 532)],
      walls := [(0, 580, 100, 20), (700, 580, 100, 20), (150, 500, 20, 80),
                (630, 500, 20, 80), (250, 450, 300, 20), (380, 200, 40, 250),
                (100, 350, 100, 20), (600, 350, 100, 20), (200, 150, 400, 20)],
      hazards := [(Color.black, 100, 560, 600, 20), (Color.white, 250, 430, 300, 20)],
      gems := [(Color.black, 60, 550), (Color.white, 730, 550),
               (Color.black, 110, 320), (Color.white, 610, 320),
               (Color.black, 250, 120), (Color.white, 500, 120)],
      exit := (360, 40, 80, 80) } ]

/-- Association-list lookup, the embedding of `d[k]` / `k in d` on the
string-keyed Python dictionaries. -/
def alist_find {β : Type} (l : List (String × β)) (k : String) : Option β :=
  match l with
  | [] => none
  | e :: es => if e.1 = k then some e.2 else alist_find es k

/-- The embedding of `del d[k]` (keys are unique in the source dicts,
so removing every binding of `k` is the dictionary deletion). -/
def alist_del {β : Type} (l : List (String × β)) (k : String) : List (String × β) :=
  match l with
  | [] => []
  | e :: es => if e.1 = k then alist_del es k else e :: alist_del es k

/-- Python's `str.lower()` (ASCII range, which covers every command
token). -/
def pyLower (str : String) : String := String.mk (str.data.map Char.toLower)

/-- Python's `str.split()`: split on whitespace runs, dropping empty
tokens (`cur` carries the characters of the token under construction,
reversed). -/
def pySplitAux (cs : List Char) (cur : List Char) : List String :=
  match cs with
  | [] => if cur.isEmpty then [] else [String.mk cur.reverse]
  | c :: rest =>
    if c.isWhitespace then
      if cur.isEmpty then pySplitAux rest []
      else String.mk cur.reverse :: pySplitAux rest []
    else pySplitAux rest (c :: cur)

def pySplit (str : String) : List String := pySplitAux str.data []

/-- Python's `int(str)`: optional surrounding whitespace, optional
sign, at least one digit. -/
def pyInt (str : String) : Option Int :=
  let digits : List Char → Option Nat := fun cs =>
    if cs.isEmpty then none
    else if cs.all Char.isDigit then
      some (cs.foldl (fun acc c => acc * 10 + (c.toNat - '0'.toNat)) 0)
    else none
  let trimmed :=
    ((str.data.dropWhile Char.isWhitespace).reverse.dropWhile Char.isWhitespace).reverse
  match trimmed with
  | '-' :: rest => (digits rest).map (fun n => -(n : Int))
  | '+' :: rest => (digits rest).map (fun n => (n : Int))
  | cs => (digits cs).map (fun n => (n : Int))

/-- The whole mutable state of a `PlayerServerProtocol` instance. -/
structure GameState where
  playerBlack : Option PlayerData
  playerWhite : Option PlayerData
  gems : List (String × Gem)
  hazards : List (String × Hazard)
  walls : List (String × Wall)
  exit_area : Rect
  scoreBlack : Nat
  scoreWhite : Nat
  current_level_index : Nat
  match_winner : Option String
  stage_winner : Option String
  start_time : Option Nat
  next_gem_id : Nat
  black_gems_required : Nat
  white_gems_required : Nat
  pending_timers : Nat
deriving DecidableEq, Repr

/-- Embeds `self.players[pid]` / `pid in self.players`: the only keys the code
ever inserts are `player_black` and `player_white`. -/
def lookupPlayer (s : GameState) (pid : String) : Option PlayerData :=
  if pid = "player_black" then s.playerBlack
  else if pid = "player_white" then s.playerWhite
  else none

/-- Write back through the same key mapping (`self.players[pid] = p`). -/
def updatePlayer (s : GameState) (pid : String) (p : PlayerData) : GameState :=
  if pid = "player_black" then { s with playerBlack := some p }
  else if pid = "player_white" then { s with playerWhite := some p }
  else s

def playersCount (s : GameState) : Nat :=
  (if s.playerBlack.isSome then 1 else 0) + (if s.playerWhite.isSome then 1 else 0)

/-- Embeds `self.scores[wid]` for the two possible winner ids. -/
def scoreOf (s : GameState) (wid : String) : Nat :=
  if wid = "player_black" then s.scoreBlack else s.scoreWhite

/-- Embeds `self.scores[wid] += 1`. -/
def bumpScore (s : GameState) (wid : String) : GameState :=
  if wid = "player_black" then { s with scoreBlack := s.scoreBlack + 1 }
  else { s with scoreWhite := s.scoreWhite + 1 }

structure GameInfo where
  current_stage : Nat
  total_stages : Nat
  score_black : Nat
  score_white : Nat
  elapsed_time : Nat
  stage_winner : Option String
  match_winner : Option String
  required_black : Nat
  required_white : Nat
deriving DecidableEq, Repr

/-- The `get_game_state` snapshot, minus the uninterpreted base64 image blobs
(produced by PIL outside the embedded core). -/
structure Snapshot where
  status : String
  players : List (String × PlayerData)
  gems : List (String × Gem)
  hazards : List (String × Hazard)
  walls : List (String × Wall)
  exit_area : Rect
  game_info : GameInfo
deriving DecidableEq, Repr

structure Resp where
  status : String
  message : Option String := none
  player_id : Option String := none
  color_type : Option String := none
  rx : Option Int := none
  ry : Option Int := none
  snapshot : Option Snapshot := none
deriving DecidableEq, Repr

/-- Embeds `_place_wall`: id is `wall_{len(self.walls)}`. -/
def _place_wall (s : GameState) (x y width height : Int) : GameState :=
  let wall_id := "wall_" ++ toString s.walls.length
  let w : Wall := { x := x, y := y, width := width, height := height }
  { s with walls := s.walls ++ [(wall_id, w)] }

/-- Embeds `_place_gem`: id is `{gem_type}_gem_{next_gem_id}`; bumps the
per-color required counter. -/
def _place_gem (s : GameState) (x y : Int) (gem_type : Color) : GameState × String :=
  let gem_id := colorStr gem_type ++ "_gem_" ++ toString s.next_gem_id
  let g : Gem := { x := x, y := y, type := gem_type }
  let s := { s with next_gem_id := s.next_gem_id + 1,
                    gems := s.gems ++ [(gem_id, g)] }
  let s :=
    match gem_type with
    | Color.black => { s with black_gems_required := s.black_gems_required + 1 }
    | Color.white => { s with white_gems_required := s.white_gems_required + 1 }
  (s, gem_id)

/-- Embeds `_reset_player_for_new_stage`. -/
def _reset_player_for_new_stage (player_data : PlayerData)
    (start_positions : List (Color × Int × Int)) : PlayerData :=
  let color := player_data.color_type
  let pos :=
    match start_positions.find? (fun e => e.1 = color) with
    | some e => (e.2.1, e.2.2)
    | none => (if color = Color.black then 50 else map_width - 50 - 48, map_height - 20 - 48)
  { player_data with
      x := pos.1, y := pos.2,
      lives := default_player_lives, gems_collected := 0, at_exit := false }

/-- Embeds `_load_level`: guarded no-op on an out-of-range index; otherwise
rebuilds the registry from the catalog entry. -/
def _load_level (s : GameState) (level_index : Nat) : GameState :=
  match levels[level_index]? with
  | none => s
  | some level_data =>
    let s := { s with current_level_index := level_index,
                      gems := [], hazards := [], walls := [],
                      black_gems_required := 0, white_gems_required := 0,
                      next_gem_id := 0, stage_winner := none }
    let s := _place_wall s 0 (map_height - 20) map_width 20
    let s := _place_wall s 0 0 20 map_height
    let s := _place_wall s (map_width - 20) 0 20 map_height
    let s := _place_wall s 0 0 map_width 20
    let s := level_data.walls.foldl (fun s w => _place_wall s w.1 w.2.1 w.2.2.1 w.2.2.2) s
    let s := level_data.hazards.foldl
      (fun s h =>
        let h_id := colorStr h.1 ++ "_pool_" ++ toString s.hazards.length
        let hz : Hazard := { type := h.1, x := h.2.1, y := h.2.2.1,
                             width := h.2.2.2.1, height := h.2.2.2.2 }
        { s with hazards := s.hazards ++ [(h_id, hz)] }) s
    let s := level_data.gems.foldl (fun s g => (_place_gem s g.2.1 g.2.2 g.1).1) s
    let s := { s with exit_area := { x := level_data.exit.1, y := level_data.exit.2.1,
                                     width := level_data.exit.2.2.1, height := level_data.exit.2.2.2 } }
    { s with
        playerBlack := s.playerBlack.map (fun p => _reset_player_for_new_stage p level_data.start_pos),
        playerWhite := s.playerWhite.map (fun p => _reset_player_for_new_stage p level_data.start_pos) }

/-- Embeds `_determine_final_winner`. -/
def _determine_final_winner (s : GameState) : GameState :=
  if s.scoreBlack > s.scoreWhite then { s with match_winner := some "player_black" }
  else if s.scoreWhite > s.scoreBlack then { s with match_winner := some "player_white" }
  else { s with match_winner := some "draw" }

/-- Embeds `_load_next_stage` (the body of the deferred timer callback). -/
def _load_next_stage (s : GameState) : GameState :=
  if s.match_winner.isSome then s
  else if s.current_level_index + 1 < total_stages then _load_level s (s.current_level_index + 1)
  else _determine_final_winner s

/-- Embeds `_full_reset`: clear players, zero scores, clear winner flags and
the clock, rebuild the catalog and load stage 0.  (Pending deferred
timers are not cancelled, as in the source.) -/
def _full_reset (s : GameState) : GameState :=
  let s := { s with playerBlack := none, playerWhite := none,
                    scoreBlack := 0, scoreWhite := 0,
                    match_winner := none, stage_winner := none, start_time := none }
  _load_level s 0

/-- Embeds `_handle_stage_win`: record the stage winner, bump its score, and
either decide the match synchronously or schedule the deferred
3-second `_load_next_stage` timer. -/
def _handle_stage_win (s : GameState) (winner_id : String) : GameState :=
  match s.stage_winner with
  | some _ => s
  | none =>
    let s := { s with stage_winner := some winner_id }
    let s := bumpScore s winner_id
    if scoreOf s winner_id ≥ total_stages / 2 + 1 then _determine_final_winner s
    else if s.current_level_index + 1 ≥ total_stages then _determine_final_winner s
    else { s with pending_timers := s.pending_timers + 1 }

/-- Embeds `_register_player`. -/
def _register_player (s : GameState) (now : Nat) (color_choice : String) : GameState × Resp :=
  let cc := pyLower color_choice
  let col? : Option Color :=
    if cc = "black" then some Color.black
    else if cc = "white" then some Color.white
    else none
  match col? with
  | none => (s, { status := "ERROR", message := some "Invalid color." })
  | some col =>
    let pid := playerId col
    if (lookupPlayer s pid).isSome then
      (s, { status := "ERROR", message := some "Color is taken." })
    else
      let pd0 : PlayerData :=
        { color_type := col, x := 0, y := 0, lives := 0, gems_collected := 0, at_exit := false }
      let sp := (levels[s.current_level_index]?.map LevelDef.start_pos).getD []
      let pd := _reset_player_for_new_stage pd0 sp
      let s := updatePlayer s pid pd
      let s := if playersCount s = 1 ∧ s.start_time = none then { s with start_time := some now } else s
      (s, { status := "OK", player_id := some pid, color_type := some (colorStr col),
            rx := some pd.x, ry := some pd.y })

/-- Embeds `_set_player_state`. -/
def _set_player_state (s : GameState) (pid : String) (x y lives : Int) : GameState × Resp :=
  match lookupPlayer s pid with
  | some p => (updatePlayer s pid { p with x := x, y := y, lives := lives }, { status := "OK" })
  | none => (s, { status := "ERROR", message := some "Player not found." })

/-- Embeds `_get_player_info` (read-only; the face blob is omitted as an
external asset). -/
def _get_player_info (s : GameState) (pid : String) : Resp :=
  match lookupPlayer s pid with
  | some p => { status := "OK", color_type := some (colorStr p.color_type) }
  | none => { status := "ERROR", message := some "Player not found." }

/-- Embeds `_get_game_state`. -/
def _get_game_state (s : GameState) (now : Nat) : Snapshot :=
  let elapsed := match s.start_time with | some t => now - t | none => 0
  { status := "OK",
    players :=
      (match s.playerBlack with | some p => [("player_black", p)] | none => []) ++
      (match s.playerWhite with | some p => [("player_white", p)] | none => []),
    gems := s.gems, hazards := s.hazards, walls := s.walls,
    exit_area := s.exit_area,
    game_info :=
      { current_stage := s.current_level_index + 1,
        total_stages := total_stages,
        score_black := s.scoreBlack, score_white := s.scoreWhite,
        elapsed_time := elapsed,
        stage_winner := s.stage_winner, match_winner := s.match_winner,
        required_black := s.black_gems_required,
        required_white := s.white_gems_required } }

/-- Embeds `_collect_gem`. -/
def _collect_gem (s : GameState) (pid gem_id : String) : GameState × Resp :=
  if s.match_winner.isSome || s.stage_winner.isSome then (s, { status := "ERROR" })
  else
    match lookupPlayer s pid, alist_find s.gems gem_id with
    | some player, some gem =>
      if player.color_type = gem.type then
        let s := updatePlayer s pid { player with gems_collected := player.gems_collected + 1 }
        ({ s with gems := alist_del s.gems gem_id }, { status := "OK" })
      else (s, { status := "ERROR" })
    | _, _ => (s, { status := "ERROR" })

/-- Embeds `_check_hazard_collision`. -/
def _check_hazard_collision (s : GameState) (pid hazard_id : String) : GameState × Resp :=
  if s.match_winner.isSome || s.stage_winner.isSome then (s, { status := "ERROR" })
  else
    match lookupPlayer s pid, alist_find s.hazards hazard_id with
    | some player, some hazard =>
      if player.color_type ≠ hazard.type then
        let s := updatePlayer s pid { player with lives := 0 }
        let opponent_id := if player.color_type = Color.black then "player_white" else "player_black"
        (_handle_stage_win s opponent_id, { status := "OK" })
      else (s, { status := "OK" })
    | _, _ => (s, { status := "OK" })

/-- Embeds `_player_at_exit`. -/
def _player_at_exit (s : GameState) (pid : String) : GameState × Resp :=
  if s.match_winner.isSome || s.stage_winner.isSome then
    (s, { status := "OK", message := some "Stage has already been won." })
  else
    match lookupPlayer s pid with
    | some player =>
      let player := { player with at_exit := true }
      let s := updatePlayer s pid player
      let required_gems :=
        if player.color_type = Color.black then s.black_gems_required else s.white_gems_required
      let s := if player.gems_collected ≥ required_gems then _handle_stage_win s pid else s
      (s, { status := "OK", message := some "Player at exit processed." })
    | none => (s, { status := "ERROR", message := some "Player not found." })

/-- The lazy match-clock initialization at the top of `proses_string`:
`if not self.start_time and len(self.players) >= 1`. -/
def touch_clock (now : Nat) (s : GameState) : GameState :=
  if s.start_time.isNone ∧ playersCount s ≥ 1 then { s with start_time := some now } else s

/-- Embeds `proses_string`: tokenizes, lazily starts the clock, dispatches.
`none` models the `IndexError` that `parts[0]` raises on an
empty/whitespace-only line. -/
def proses_string (s : GameState) (now : Nat) (command_string : String) :
    Option (GameState × Resp) :=
  match pySplit command_string with
  | [] => none
  | c :: args =>
    let command := pyLower c
    let s := touch_clock now s
    some (
      if command = "register_player" then
        match args with
        | a :: _ => _register_player s now a
        | [] => (s, { status := "ERROR" })
      else if command = "set_player_state" then
        match args with
        | [a0, a1, a2, a3] =>
          match pyInt a1, pyInt a2, pyInt a3 with
          | some x, some y, some lv => _set_player_state s a0 x y lv
          | _, _, _ => (s, { status := "ERROR" })
        | _ => (s, { status := "ERROR" })
      else if command = "get_game_state" then
        let snap := _get_game_state s now
        (s, { status := snap.status, snapshot := some snap })
      else if command = "get_player_info" then
        match args with
        | a :: _ => (s, _get_player_info s a)
        | [] => (s, { status := "ERROR" })
      else if command = "collect_gem" then
        match args with
        | [a0, a1] => _collect_gem s a0 a1
        | _ => (s, { status := "ERROR" })
      else if command = "check_hazard_collision" then
        match args with
        | [a0, a1] => _check_hazard_collision s a0 a1
        | _ => (s, { status := "ERROR" })
      else if command = "player_at_exit" then
        match args with
        | a :: _ => _player_at_exit s a
        | [] => (s, { status := "ERROR" })
      else if command = "reset_game" then (_full_reset s, { status := "OK" })
      else (s, { status := "ERROR", message := some "Unknown command" }))

/-- The state built by `__init__` (asset generation omitted). -/
def initState : GameState :=
  _full_reset
    { playerBlack := none, playerWhite := none,
      gems := [], hazards := [], walls := [],
      exit_area := { x := 0, y := 0, width := 0, height := 0 },
      scoreBlack := 0, scoreWhite := 0,
      current_level_index := 0, match_winner := none, stage_winner := none,
      start_time := none, next_gem_id := 0,
      black_gems_required := 0, white_gems_required := 0,
      pending_timers := 0 }

/-- The malformed-request categories of the error taxonomy, read off
the dispatch in `proses_string`: empty line, unknown command name,
missing required arguments, or a non-numeric numeric argument. -/
def malformedLine (command_string : String) : Bool :=
  match pySplit command_string with
  | [] => true
  | c :: args =>
    let command := pyLower c
    if command = "register_player" then args.isEmpty
    else if command = "set_player_state" then
      match args with
      | [_, a1, a2, a3] => (pyInt a1).isNone || (pyInt a2).isNone || (pyInt a3).isNone
      | _ => true
    else if command = "get_game_state" then false
    else if command = "get_player_info" then args.isEmpty
    else if command = "collect_gem" then decide (args.length ≠ 2)
    else if command = "check_hazard_collision" then decide (args.length ≠ 2)
    else if command = "player_at_exit" then args.isEmpty
    else if command = "reset_game" then false
    else true

/-- Concrete scenario state: black player registered on the fresh server
state. -/
def regBState : GameState := (_register_player initState 5 "black").1

/-- Concrete scenario state: both players registered. -/
def regBWState : GameState := (_register_player regBState 5 "white").1

/-- Concrete scenario state: stage 1 won by white after the black
player touched the white hazard of level 1. -/
def wonState : GameState := (_check_hazard_collision regBWState "player_black" "white_pool_0").1

/-! ### Helper lemmas about the association-list operations -/

theorem alist_find_del_self {β : Type} (l : List (String × β)) (k : String) :
    alist_find (alist_del l k) k = none := by
  induction l with
  | nil => rfl
  | cons e es ih =>
    rw [alist_del]
    by_cases h : e.1 = k
    · simp only [h, if_true]; exact ih
    · simp only [h, if_false, alist_find, if_neg h]; exact ih

theorem alist_find_none_del {β : Type} (l : List (String × β)) (k k' : String)
    (h : alist_find l k = none) : alist_find (alist_del l k') k = none := by
  induction l with
  | nil => rfl
  | cons e es ih =>
    rw [alist_find] at h
    by_cases he : e.1 = k
    · rw [if_pos he] at h; exact absurd h (by simp)
    · rw [if_neg he] at h
      rw [alist_del]
      by_cases he' : e.1 = k'
      · rw [if_pos he']; exact ih h
      · rw [if_neg he', alist_find, if_neg he]; exact ih h

/-! ### Frame lemmas: fields each operation leaves untouched -/

theorem updatePlayer_keeps (s : GameState) (pid : String) (p : PlayerData) :
    (updatePlayer s pid p).black_gems_required = s.black_gems_required ∧
    (updatePlayer s pid p).white_gems_required = s.white_gems_required ∧
    (updatePlayer s pid p).gems = s.gems ∧
    (updatePlayer s pid p).stage_winner = s.stage_winner ∧
    (updatePlayer s pid p).match_winner = s.match_winner ∧
    (updatePlayer s pid p).scoreBlack = s.scoreBlack ∧
    (updatePlayer s pid p).scoreWhite = s.scoreWhite ∧
    (updatePlayer s pid p).current_level_index = s.current_level_index ∧
    (updatePlayer s pid p).pending_timers = s.pending_timers ∧
    (updatePlayer s pid p).hazards = s.hazards := by
  unfold updatePlayer
  repeat' split
  all_goals exact ⟨rfl, rfl, rfl, rfl, rfl, rfl, rfl, rfl, rfl, rfl⟩

theorem touch_clock_keeps (now : Nat) (s : GameState) :
    (touch_clock now s).black_gems_required = s.black_gems_required ∧
    (touch_clock now s).white_gems_required = s.white_gems_required ∧
    (touch_clock now s).gems = s.gems := by
  unfold touch_clock; split <;> exact ⟨rfl, rfl, rfl⟩

theorem _handle_stage_win_keeps (s : GameState) (wid : String) :
    (_handle_stage_win s wid).black_gems_required = s.black_gems_required ∧
    (_handle_stage_win s wid).white_gems_required = s.white_gems_required ∧
    (_handle_stage_win s wid).gems = s.gems ∧
    (_handle_stage_win s wid).playerBlack = s.playerBlack ∧
    (_handle_stage_win s wid).playerWhite = s.playerWhite ∧
    (_handle_stage_win s wid).current_level_index = s.current_level_index := by
  unfold _handle_stage_win bumpScore _determine_final_winner
  dsimp only
  repeat' split
  all_goals exact ⟨rfl, rfl, rfl, rfl, rfl, rfl⟩

theorem _register_player_keeps (s : GameState) (now : Nat) (a : String) :
    ((_register_player s now a).1).black_gems_required = s.black_gems_required ∧
    ((_register_player s now a).1).white_gems_required = s.white_gems_required ∧
    ((_register_player s now a).1).gems = s.gems := by
  unfold _register_player updatePlayer
  dsimp only
  repeat' split
  all_goals exact ⟨rfl, rfl, rfl⟩

theorem _set_player_state_keeps (s : GameState) (pid : String) (x y lives : Int) :
    ((_set_player_state s pid x y lives).1).black_gems_required = s.black_gems_required ∧
    ((_set_player_state s pid x y lives).1).white_gems_required = s.white_gems_required ∧
    ((_set_player_state s pid x y lives).1).gems = s.gems := by
  unfold _set_player_state
  split
  · rename_i p hp
    exact ⟨(updatePlayer_keeps s pid _).1, (updatePlayer_keeps s pid _).2.1,
           (updatePlayer_keeps s pid _).2.2.1⟩
  · exact ⟨rfl, rfl, rfl⟩

theorem _collect_gem_keeps (s : GameState) (pid gid : String) :
    ((_collect_gem s pid gid).1).black_gems_required = s.black_gems_required ∧
    ((_collect_gem s pid gid).1).white_gems_required = s.white_gems_required := by
  unfold _collect_gem
  dsimp only
  split
  · exact ⟨rfl, rfl⟩
  · split
    · split
      · exact ⟨(updatePlayer_keeps s pid _).1, (updatePlayer_keeps s pid _).2.1⟩
      · exact ⟨rfl, rfl⟩
    · exact ⟨rfl, rfl⟩

theorem _collect_gem_gems (s : GameState) (pid gid : String) :
    ((_collect_gem s pid gid).1).gems = s.gems ∨
    ((_collect_gem s pid gid).1).gems = alist_del s.gems gid := by
  unfold _collect_gem
  dsimp only
  split
  · exact Or.inl rfl
  · split
    · split
      · exact Or.inr (by rw [(updatePlayer_keeps s pid _).2.2.1])
      · exact Or.inl rfl
    · exact Or.inl rfl

theorem _check_hazard_collision_keeps (s : GameState) (pid hid : String) :
    ((_check_hazard_collision s pid hid).1).black_gems_required = s.black_gems_required ∧
    ((_check_hazard_collision s pid hid).1).white_gems_required = s.white_gems_required ∧
    ((_check_hazard_collision s pid hid).1).gems = s.gems := by
  unfold _check_hazard_collision
  dsimp only
  split
  · exact ⟨rfl, rfl, rfl⟩
  · split
    · split
      · refine ⟨?_, ?_, ?_⟩
        · exact ((_handle_stage_win_keeps _ _).1).trans (updatePlayer_keeps s pid _).1
        · exact ((_handle_stage_win_keeps _ _).2.1).trans (updatePlayer_keeps s pid _).2.1
        · exact ((_handle_stage_win_keeps _ _).2.2.1).trans (updatePlayer_keeps s pid _).2.2.1
      · exact ⟨rfl, rfl, rfl⟩
    · exact ⟨rfl, rfl, rfl⟩

theorem _player_at_exit_keeps (s : GameState) (pid : String) :
    ((_player_at_exit s pid).1).black_gems_required = s.black_gems_required ∧
    ((_player_at_exit s pid).1).white_gems_required = s.white_gems_required ∧
    ((_player_at_exit s pid).1).gems = s.gems := by
  unfold _player_at_exit
  dsimp only
  split
  · exact ⟨rfl, rfl, rfl⟩
  · split
    · repeat' split
      all_goals first
        | exact ⟨((_handle_stage_win_keeps _ _).1).trans (updatePlayer_keeps s pid _).1,
                 ((_handle_stage_win_keeps _ _).2.1).trans (updatePlayer_keeps s pid _).2.1,
                 ((_handle_stage_win_keeps _ _).2.2.1).trans (updatePlayer_keeps s pid _).2.2.1⟩
        | exact ⟨(updatePlayer_keeps s pid _).1, (updatePlayer_keeps s pid _).2.1,
                 (updatePlayer_keeps s pid _).2.2.1⟩
    · exact ⟨rfl, rfl, rfl⟩

/-! ### Behavioural lemmas for the win machinery -/

theorem _determine_final_winner_keeps (s : GameState) :
    (_determine_final_winner s).stage_winner = s.stage_winner ∧
    (_determine_final_winner s).scoreBlack = s.scoreBlack ∧
    (_determine_final_winner s).scoreWhite = s.scoreWhite ∧
    (_determine_final_winner s).pending_timers = s.pending_timers ∧
    (_determine_final_winner s).current_level_index = s.current_level_index := by
  unfold _determine_final_winner
  repeat' split
  all_goals exact ⟨rfl, rfl, rfl, rfl, rfl⟩

theorem _determine_final_winner_value (s : GameState) :
    (_determine_final_winner s).match_winner =
      some (if s.scoreBlack > s.scoreWhite then "player_black"
            else if s.scoreWhite > s.scoreBlack then "player_white" else "draw") := by
  unfold _determine_final_winner
  repeat' split
  all_goals rfl

theorem scoreOf_bumpScore_self (s : GameState) (wid : String) :
    scoreOf (bumpScore s wid) wid = scoreOf s wid + 1 := by
  unfold scoreOf bumpScore
  by_cases h : wid = "player_black" <;> simp [h]

theorem bumpScore_stage_winner (s : GameState) (wid : String) :
    (bumpScore s wid).stage_winner = s.stage_winner := by
  unfold bumpScore; split <;> rfl

theorem lookupPlayer_congr (s t : GameState) (pid : String)
    (hb : s.playerBlack = t.playerBlack) (hw : s.playerWhite = t.playerWhite) :
    lookupPlayer s pid = lookupPlayer t pid := by
  unfold lookupPlayer
  repeat' split
  all_goals first | exact hb | exact hw | rfl

theorem lookupPlayer_update_self (s : GameState) (pid : String) (p' : PlayerData)
    (h : (lookupPlayer s pid).isSome) :
    lookupPlayer (updatePlayer s pid p') pid = some p' := by
  unfold lookupPlayer updatePlayer at *
  by_cases hb : pid = "player_black"
  · simp [hb]
  · by_cases hw : pid = "player_white"
    · simp [hb, hw]
    · simp [hb, hw] at h

/-- When no stage winner is recorded yet, `_handle_stage_win` records
`wid`, bumps exactly that score, and leaves the opposing score alone. -/
theorem _handle_stage_win_sets (s : GameState) (wid : String)
    (h : s.stage_winner = none) :
    (_handle_stage_win s wid).stage_winner = some wid ∧
    scoreOf (_handle_stage_win s wid) wid = scoreOf s wid + 1 ∧
    (wid = "player_black" → (_handle_stage_win s wid).scoreWhite = s.scoreWhite) ∧
    (wid = "player_white" → (_handle_stage_win s wid).scoreBlack = s.scoreBlack) := by
  unfold _handle_stage_win
  rw [h]
  dsimp only
  have hb := scoreOf_bumpScore_self { s with stage_winner := some wid } wid
  split
  · refine ⟨(_determine_final_winner_keeps _).1.trans ?_, ?_, ?_, ?_⟩
    · exact (bumpScore_stage_winner { s with stage_winner := some wid } wid)
    · unfold scoreOf at hb ⊢
      by_cases hw : wid = "player_black"
      · rw [hw] at hb ⊢; rw [if_pos rfl] at hb ⊢
        rw [(_determine_final_winner_keeps _).2.1]; exact hb
      · rw [if_neg hw] at hb ⊢
        rw [(_determine_final_winner_keeps _).2.2.1]; exact hb
    · intro hw
      rw [(_determine_final_winner_keeps _).2.2.1]
      unfold bumpScore
      rw [hw]; simp
    · intro hw
      rw [(_determine_final_winner_keeps _).2.1]
      unfold bumpScore
      rw [hw]; simp
  · split
    · refine ⟨(_determine_final_winner_keeps _).1.trans ?_, ?_, ?_, ?_⟩
      · exact (bumpScore_stage_winner { s with stage_winner := some wid } wid)
      · unfold scoreOf at hb ⊢
        by_cases hw : wid = "player_black"
        · rw [hw] at hb ⊢; rw [if_pos rfl] at hb ⊢
          rw [(_determine_final_winner_keeps _).2.1]; exact hb
        · rw [if_neg hw] at hb ⊢
          rw [(_determine_final_winner_keeps _).2.2.1]; exact hb
      · intro hw
        rw [(_determine_final_winner_keeps _).2.2.1]
        unfold bumpScore
        rw [hw]; simp
      · intro hw
        rw [(_determine_final_winner_keeps _).2.1]
        unfold bumpScore
        rw [hw]; simp
    · refine ⟨?_, ?_, ?_, ?_⟩
      · exact bumpScore_stage_winner { s with stage_winner := some wid } wid
      · exact hb
      · intro hw
        unfold bumpScore
        rw [hw]; simp
      · intro hw
        unfold bumpScore
        rw [hw]; simp

theorem scoreOf_congr (a b : GameState) (wid : String)
    (h1 : a.scoreBlack = b.scoreBlack) (h2 : a.scoreWhite = b.scoreWhite) :
    scoreOf a wid = scoreOf b wid := by
  unfold scoreOf
  split
  · exact h1
  · exact h2

theorem bumpScore_keeps (s : GameState) (wid : String) :
    (bumpScore s wid).current_level_index = s.current_level_index ∧
    (bumpScore s wid).pending_timers = s.pending_timers ∧
    (bumpScore s wid).match_winner = s.match_winner := by
  unfold bumpScore; split <;> exact ⟨rfl, rfl, rfl⟩

/-! ### The claims -/

/-- Claim C10: `collect_gem` on an existing gem whose color differs
from the referenced player's color returns status ERROR and alters no
state at all: the result state is exactly the input state (gem still
present, all counters and every other field unchanged). -/
theorem collect_gem_wrong_color_noop (s : GameState) (pid gid : String)
    (p : PlayerData) (g : Gem)
    (hp : lookupPlayer s pid = some p) (hg : alist_find s.gems gid = some g)
    (hne : p.color_type ≠ g.type) :
    _collect_gem s pid gid = (s, { status := "ERROR" }) := by
  unfold _collect_gem
  dsimp only
  split
  · rfl
  · simp only [hp, hg]
    rw [if_neg hne]

theorem collect_gem_wrong_color_noop_witness :
    _collect_gem regBState "player_black" "white_gem_1" = (regBState, { status := "ERROR" }) :=
  collect_gem_wrong_color_noop regBState "player_black" "white_gem_1"
    { color_type := Color.black, x := 50, y := 532, lives := 1, gems_collected := 0, at_exit := false }
    { x := 500, y := 450, type := Color.white }
    (by decide) (by decide) (by decide)

/-- Claim C7: `reset_game` never fails: in every state it returns
status OK, and afterwards the current stage is 1 (level index 0), the
players map is empty, both cumulative scores are 0, and neither
stage_winner nor match_winner is set. -/
theorem reset_game_resets (s : GameState) (now : Nat) :
    ∃ s' r, proses_string s now "reset_game" = some (s', r) ∧
      r.status = "OK" ∧
      s'.current_level_index = 0 ∧
      (_get_game_state s' now).game_info.current_stage = 1 ∧
      s'.playerBlack = none ∧ s'.playerWhite = none ∧
      s'.scoreBlack = 0 ∧ s'.scoreWhite = 0 ∧
      s'.stage_winner = none ∧ s'.match_winner = none :=
  ⟨_full_reset (touch_clock now s), { status := "OK" },
    rfl, rfl, rfl, rfl, rfl, rfl, rfl, rfl, rfl, rfl⟩

/-- Claim C1: for a registered player and a present hazard of a
different color, with neither stage_winner nor match_winner set,
`check_hazard_collision` zeroes that player's lives, sets stage_winner
to the opposing color's player id, and increments exactly the opposing
color's cumulative score by 1 (the toucher's own score unchanged). -/
theorem hazard_wrong_color_instant_win (s : GameState) (pid hid : String)
    (p : PlayerData) (hz : Hazard)
    (hpid : pid = playerId p.color_type)
    (hp : lookupPlayer s pid = some p) (hh : alist_find s.hazards hid = some hz)
    (hcol : p.color_type ≠ hz.type)
    (hsw : s.stage_winner = none) (hmw : s.match_winner = none) :
    lookupPlayer ((_check_hazard_collision s pid hid).1) pid = some { p with lives := 0 } ∧
    ((_check_hazard_collision s pid hid).1).stage_winner =
      some (if p.color_type = Color.black then "player_white" else "player_black") ∧
    scoreOf ((_check_hazard_collision s pid hid).1)
        (if p.color_type = Color.black then "player_white" else "player_black") =
      scoreOf s (if p.color_type = Color.black then "player_white" else "player_black") + 1 ∧
    scoreOf ((_check_hazard_collision s pid hid).1) pid = scoreOf s pid ∧
    ((_check_hazard_collision s pid hid).2).status = "OK" := by
  have hstep : _check_hazard_collision s pid hid =
      (_handle_stage_win (updatePlayer s pid { p with lives := 0 })
         (if p.color_type = Color.black then "player_white" else "player_black"),
       { status := "OK" }) := by
    unfold _check_hazard_collision
    rw [hmw, hsw]
    simp only [Option.isSome_none, Bool.or_self, Bool.false_eq_true, if_false, hp, hh]
    rw [if_pos hcol]
  rw [hstep]
  dsimp only
  set u := updatePlayer s pid { p with lives := 0 } with hu
  set opp := (if p.color_type = Color.black then "player_white" else "player_black") with hopp
  obtain ⟨k1, k2, k3, k4, k5, k6, k7, k8, k9, k10⟩ := updatePlayer_keeps s pid { p with lives := 0 }
  obtain ⟨m1, m2, m3, m4, m5, m6⟩ := _handle_stage_win_keeps u opp
  have husw : u.stage_winner = none := k4.trans hsw
  obtain ⟨hw1, hw2, hw3, hw4⟩ := _handle_stage_win_sets u opp husw
  refine ⟨?_, hw1, ?_, ?_, rfl⟩
  · rw [lookupPlayer_congr (_handle_stage_win u opp) u pid m4 m5]
    exact lookupPlayer_update_self s pid _ (by rw [hp]; rfl)
  · rw [hw2, scoreOf_congr u s opp k6 k7]
  · cases hc : p.color_type with
    | black =>
      have hpid' : pid = "player_black" := by rw [hpid, hc]; rfl
      have hopp' : opp = "player_white" := by rw [hopp, hc]; exact if_pos rfl
      rw [hpid']
      show (_handle_stage_win u opp).scoreBlack = s.scoreBlack
      rw [hw4 hopp', k6]
    | white =>
      have hpid' : pid = "player_white" := by rw [hpid, hc]; rfl
      have hopp' : opp = "player_black" := by rw [hopp, hc]; exact if_neg (by decide)
      rw [hpid']
      show (_handle_stage_win u opp).scoreWhite = s.scoreWhite
      rw [hw3 hopp', k7]

theorem hazard_wrong_color_instant_win_witness :
    ((_check_hazard_collision regBWState "player_black" "white_pool_0").1).stage_winner =
      some "player_white" ∧
    scoreOf ((_check_hazard_collision regBWState "player_black" "white_pool_0").1) "player_white" =
      scoreOf regBWState "player_white" + 1 ∧
    lookupPlayer ((_check_hazard_collision regBWState "player_black" "white_pool_0").1)
        "player_black" =
      some { color_type := Color.black, x := 50, y := 532, lives := 0,
             gems_collected := 0, at_exit := false } :=
  ⟨(hazard_wrong_color_instant_win regBWState "player_black" "white_pool_0"
      { color_type := Color.black, x := 50, y := 532, lives := 1, gems_collected := 0, at_exit := false }
      { type := Color.white, x := 300, y := 560, width := 100, height := 20 }
      (by decide) (by decide) (by decide) (by decide) (by decide) (by decide)).2.1,
   (hazard_wrong_color_instant_win regBWState "player_black" "white_pool_0"
      { color_type := Color.black, x := 50, y := 532, lives := 1, gems_collected := 0, at_exit := false }
      { type := Color.white, x := 300, y := 560, width := 100, height := 20 }
      (by decide) (by decide) (by decide) (by decide) (by decide) (by decide)).2.2.1,
   (hazard_wrong_color_instant_win regBWState "player_black" "white_pool_0"
      { color_type := Color.black, x := 50, y := 532, lives := 1, gems_collected := 0, at_exit := false }
      { type := Color.white, x := 300, y := 560, width := 100, height := 20 }
      (by decide) (by decide) (by decide) (by decide) (by decide) (by decide)).1⟩

/-- Claim C2: while the stage and match are undecided,
`player_at_exit` records at_exit unconditionally and declares the
player stage winner exactly when gems_collected has reached the
required count for the player's color; falling short leaves
stage_winner unset (so a later call can still win the stage). -/
theorem player_at_exit_records_and_wins_iff (s : GameState) (pid : String) (p : PlayerData)
    (hp : lookupPlayer s pid = some p)
    (hsw : s.stage_winner = none) (hmw : s.match_winner = none) :
    lookupPlayer ((_player_at_exit s pid).1) pid = some { p with at_exit := true } ∧
    (((_player_at_exit s pid).1).stage_winner = some pid ↔
       p.gems_collected ≥
         (if p.color_type = Color.black then s.black_gems_required else s.white_gems_required)) ∧
    (p.gems_collected <
         (if p.color_type = Color.black then s.black_gems_required else s.white_gems_required) →
       ((_player_at_exit s pid).1).stage_winner = none) ∧
    ((_player_at_exit s pid).2).status = "OK" := by
  obtain ⟨k1, k2, k3, k4, k5, k6, k7, k8, k9, k10⟩ := updatePlayer_keeps s pid { p with at_exit := true }
  have hstep : _player_at_exit s pid =
      (if p.gems_collected ≥
            (if p.color_type = Color.black then s.black_gems_required else s.white_gems_required)
        then _handle_stage_win (updatePlayer s pid { p with at_exit := true }) pid
        else updatePlayer s pid { p with at_exit := true },
       { status := "OK", message := some "Player at exit processed." }) := by
    unfold _player_at_exit
    rw [hmw, hsw]
    simp only [Option.isSome_none, Bool.or_self, Bool.false_eq_true, if_false, hp]
    dsimp only
    rw [k1, k2]
  rw [hstep]
  dsimp only
  set u := updatePlayer s pid { p with at_exit := true } with hu
  have husw : u.stage_winner = none := k4.trans hsw
  by_cases hge : p.gems_collected ≥
      (if p.color_type = Color.black then s.black_gems_required else s.white_gems_required)
  · rw [if_pos hge]
    obtain ⟨m1, m2, m3, m4, m5, m6⟩ := _handle_stage_win_keeps u pid
    obtain ⟨hw1, hw2, hw3, hw4⟩ := _handle_stage_win_sets u pid husw
    refine ⟨?_, ?_, ?_, rfl⟩
    · rw [lookupPlayer_congr (_handle_stage_win u pid) u pid m4 m5]
      exact lookupPlayer_update_self s pid _ (by rw [hp]; rfl)
    · exact ⟨fun _ => hge, fun _ => hw1⟩
    · intro hlt; exact absurd hge (Nat.not_le.mpr hlt)
  · rw [if_neg hge]
    refine ⟨?_, ?_, ?_, rfl⟩
    · exact lookupPlayer_update_self s pid _ (by rw [hp]; rfl)
    · rw [husw]
      constructor
      · intro h; cases h
      · intro h; exact absurd h hge
    · intro _; exact husw

theorem player_at_exit_records_and_wins_iff_witness :
    lookupPlayer ((_player_at_exit regBWState "player_black").1) "player_black" =
      some { color_type := Color.black, x := 50, y := 532, lives := 1,
             gems_collected := 0, at_exit := true } ∧
    ((_player_at_exit regBWState "player_black").1).stage_winner = none :=
  ⟨(player_at_exit_records_and_wins_iff regBWState "player_black"
      { color_type := Color.black, x := 50, y := 532, lives := 1, gems_collected := 0, at_exit := false }
      (by decide) (by decide) (by decide)).1,
   (player_at_exit_records_and_wins_iff regBWState "player_black"
      { color_type := Color.black, x := 50, y := 532, lives := 1, gems_collected := 0, at_exit := false }
      (by decide) (by decide) (by decide)).2.2.1 (by decide)⟩

/-- Claim C3: when a stage win is recorded (`_handle_stage_win` past
its guard), the match winner is determined synchronously exactly when
the incremented score exceeds total_stages/2 or the completed stage
was the last; it is then the id with the strictly higher cumulative
score, or "draw" on equal scores.  Otherwise match_winner stays unset,
the level index is untouched, and exactly one deferred
`_load_next_stage` callback is scheduled (the source arms it with a
3-second wall-clock delay). -/
theorem stage_win_match_resolution (s : GameState) (wid : String)
    (_hwid : wid = "player_black" ∨ wid = "player_white")
    (hsw : s.stage_winner = none) (hmw : s.match_winner = none) :
    ((scoreOf s wid + 1 > total_stages / 2 ∨ s.current_level_index + 1 ≥ total_stages) →
       (_handle_stage_win s wid).pending_timers = s.pending_timers ∧
       (_handle_stage_win s wid).current_level_index = s.current_level_index ∧
       (_handle_stage_win s wid).match_winner =
         some (if (_handle_stage_win s wid).scoreBlack > (_handle_stage_win s wid).scoreWhite
               then "player_black"
               else if (_handle_stage_win s wid).scoreWhite > (_handle_stage_win s wid).scoreBlack
               then "player_white" else "draw")) ∧
    (¬ (scoreOf s wid + 1 > total_stages / 2 ∨ s.current_level_index + 1 ≥ total_stages) →
       (_handle_stage_win s wid).match_winner = none ∧
       (_handle_stage_win s wid).current_level_index = s.current_level_index ∧
       (_handle_stage_win s wid).pending_timers = s.pending_timers + 1) := by
  unfold _handle_stage_win
  rw [hsw]
  dsimp only
  set s1 := bumpScore { s with stage_winner := some wid } wid with hs1
  obtain ⟨b1, b2, b3⟩ := bumpScore_keeps { s with stage_winner := some wid } wid
  have hsc : scoreOf s1 wid = scoreOf s wid + 1 := by
    rw [hs1, scoreOf_bumpScore_self]
    exact congrArg (· + 1) (scoreOf_congr _ _ _ rfl rfl)
  have hcli : s1.current_level_index = s.current_level_index := b1
  have hpt : s1.pending_timers = s.pending_timers := b2
  have hmw1 : s1.match_winner = s.match_winner := b3
  have h52 : total_stages / 2 = 2 := rfl
  have h5 : total_stages = 5 := rfl
  obtain ⟨d1, d2, d3, d4, d5⟩ := _determine_final_winner_keeps s1
  by_cases h1 : scoreOf s1 wid ≥ total_stages / 2 + 1
  · rw [if_pos h1]
    constructor
    · intro _
      refine ⟨d4.trans hpt, d5.trans hcli, ?_⟩
      rw [d2, d3]
      exact _determine_final_winner_value s1
    · intro hn
      exact absurd (Or.inl (by rw [h52] at h1 ⊢; omega)) hn
  · rw [if_neg h1]
    by_cases h2 : s1.current_level_index + 1 ≥ total_stages
    · rw [if_pos h2]
      constructor
      · intro _
        refine ⟨d4.trans hpt, d5.trans hcli, ?_⟩
        rw [d2, d3]
        exact _determine_final_winner_value s1
      · intro hn
        exact absurd (Or.inr (by rw [← hcli]; exact h2)) hn
    · rw [if_neg h2]
      constructor
      · intro hc
        exfalso
        rcases hc with hc | hc
        · rw [h52] at hc h1; omega
        · rw [← hcli] at hc; exact h2 hc
      · intro _
        exact ⟨hmw1.trans hmw, hcli, congrArg (· + 1) hpt⟩

theorem stage_win_match_resolution_witness :
    (_handle_stage_win regBWState "player_black").match_winner = none ∧
    (_handle_stage_win regBWState "player_black").current_level_index =
      regBWState.current_level_index ∧
    (_handle_stage_win regBWState "player_black").pending_timers =
      regBWState.pending_timers + 1 :=
  (stage_win_match_resolution regBWState "player_black" (Or.inl rfl)
    (by decide) (by decide)).2 (by decide)

/-- Counterexample to claim C4 as stated: with the stage already won
(stage 1 won by white after black touched the white hazard),
`player_at_exit` answers status OK — not ERROR — though it leaves the
state unchanged. -/
theorem decided_stage_player_at_exit_not_error :
    wonState.stage_winner = some "player_white" ∧
    ((_player_at_exit wonState "player_black").2).status = "OK" ∧
    ((_player_at_exit wonState "player_black").2).status ≠ "ERROR" ∧
    (_player_at_exit wonState "player_black").1 = wonState := by
  refine ⟨by decide, rfl, by decide, rfl⟩

/-- Claim C4 (amended): once stage_winner or match_winner is set,
`collect_gem` and `check_hazard_collision` return status ERROR while
`player_at_exit` returns status OK with the message "Stage has already
been won."; all three leave the entire state unchanged until the next
stage loads or the game is reset. -/
theorem decided_stage_gates_mutations (s : GameState) (pid gid hid : String)
    (h : s.stage_winner ≠ none ∨ s.match_winner ≠ none) :
    _collect_gem s pid gid = (s, { status := "ERROR" }) ∧
    _check_hazard_collision s pid hid = (s, { status := "ERROR" }) ∧
    _player_at_exit s pid =
      (s, { status := "OK", message := some "Stage has already been won." }) := by
  have hb : (s.match_winner.isSome || s.stage_winner.isSome) = true := by
    rcases h with h | h
    · cases hs : s.stage_winner with
      | none => exact absurd hs h
      | some w => simp [hs]
    · cases hs : s.match_winner with
      | none => exact absurd hs h
      | some w => simp [hs]
  refine ⟨?_, ?_, ?_⟩
  · unfold _collect_gem; rw [hb]; simp
  · unfold _check_hazard_collision; rw [hb]; simp
  · unfold _player_at_exit; rw [hb]; simp

theorem decided_stage_gates_mutations_witness :
    _collect_gem wonState "player_black" "black_gem_0" = (wonState, { status := "ERROR" }) ∧
    _check_hazard_collision wonState "player_black" "white_pool_0" =
      (wonState, { status := "ERROR" }) ∧
    _player_at_exit wonState "player_black" =
      (wonState, { status := "OK", message := some "Stage has already been won." }) :=
  decided_stage_gates_mutations wonState "player_black" "black_gem_0" "white_pool_0"
    (Or.inl (by decide))

/-- Counterexample to claim C8 as stated: `check_hazard_collision`
with an unknown player id returns status OK, not ERROR (the state is
unchanged). -/
theorem check_hazard_unknown_id_not_error :
    lookupPlayer initState "player_black" = none ∧
    ((_check_hazard_collision initState "player_black" "white_pool_0").2).status = "OK" ∧
    ((_check_hazard_collision initState "player_black" "white_pool_0").2).status ≠ "ERROR" ∧
    (_check_hazard_collision initState "player_black" "white_pool_0").1 = initState := by
  refine ⟨by decide, rfl, by decide, rfl⟩

/-- Claim C8 (amended): a command referencing a nonexistent id changes
no state; `set_player_state`, `get_player_info`, `collect_gem` and
`player_at_exit` (the latter while stage/match are undecided) return
status ERROR, but `check_hazard_collision` with an unknown id returns
status OK (ERROR only when the stage/match is already decided). -/
theorem unknown_id_error_handling :
    (∀ s pid x y lives, lookupPlayer s pid = none →
       _set_player_state s pid x y lives =
         (s, { status := "ERROR", message := some "Player not found." })) ∧
    (∀ s pid, lookupPlayer s pid = none →
       _get_player_info s pid = { status := "ERROR", message := some "Player not found." }) ∧
    (∀ s pid gid, lookupPlayer s pid = none ∨ alist_find s.gems gid = none →
       _collect_gem s pid gid = (s, { status := "ERROR" })) ∧
    (∀ s pid hid, lookupPlayer s pid = none ∨ alist_find s.hazards hid = none →
       (_check_hazard_collision s pid hid).1 = s ∧
       (s.stage_winner = none → s.match_winner = none →
         _check_hazard_collision s pid hid = (s, { status := "OK" }))) ∧
    (∀ s pid, lookupPlayer s pid = none → s.stage_winner = none → s.match_winner = none →
       _player_at_exit s pid =
         (s, { status := "ERROR", message := some "Player not found." })) := by
  refine ⟨?_, ?_, ?_, ?_, ?_⟩
  · intro s pid x y lives h
    unfold _set_player_state
    rw [h]
  · intro s pid h
    unfold _get_player_info
    rw [h]
  · intro s pid gid h
    unfold _collect_gem
    dsimp only
    split
    · rfl
    · rcases h with h | h
      · rw [h]
      · cases hl : lookupPlayer s pid with
        | none => rfl
        | some p => rw [h]
  · intro s pid hid h
    unfold _check_hazard_collision
    dsimp only
    constructor
    · split
      · rfl
      · rcases h with h | h
        · rw [h]
        · cases hl : lookupPlayer s pid with
          | none => rfl
          | some p => rw [h]
    · intro hsw hmw
      rw [hmw, hsw]
      simp only [Option.isSome_none, Bool.or_self, Bool.false_eq_true, if_false]
      rcases h with h | h
      · rw [h]
      · cases hl : lookupPlayer s pid with
        | none => rfl
        | some p => rw [h]
  · intro s pid h hsw hmw
    unfold _player_at_exit
    rw [hmw, hsw]
    simp only [Option.isSome_none, Bool.or_self, Bool.false_eq_true, if_false, h]

theorem unknown_id_error_handling_witness :
    _set_player_state initState "ghost" 1 2 3 =
      (initState, { status := "ERROR", message := some "Player not found." }) ∧
    _collect_gem initState "player_black" "black_gem_0" = (initState, { status := "ERROR" }) ∧
    _player_at_exit initState "nobody" =
      (initState, { status := "ERROR", message := some "Player not found." }) ∧
    _get_player_info initState "nobody" =
      { status := "ERROR", message := some "Player not found." } :=
  ⟨unknown_id_error_handling.1 initState "ghost" 1 2 3 (by decide),
   unknown_id_error_handling.2.2.1 initState "player_black" "black_gem_0" (Or.inl (by decide)),
   unknown_id_error_handling.2.2.2.2 initState "nobody" (by decide) (by decide) (by decide),
   unknown_id_error_handling.2.1 initState "nobody" (by decide)⟩

/-- Every non-`reset_game` line that parses runs exactly one of the
handlers (or nothing) on the clock-touched state. -/
theorem proses_string_frame (s : GameState) (now : Nat) (line : String)
    (s' : GameState) (r : Resp)
    (hrun : proses_string s now line = some (s', r))
    (hnr : ∀ c args, pySplit line = c :: args → pyLower c ≠ "reset_game") :
    s' = touch_clock now s ∨
    (∃ a, s' = (_register_player (touch_clock now s) now a).1) ∨
    (∃ a x y lv, s' = (_set_player_state (touch_clock now s) a x y lv).1) ∨
    (∃ a b, s' = (_collect_gem (touch_clock now s) a b).1) ∨
    (∃ a b, s' = (_check_hazard_collision (touch_clock now s) a b).1) ∨
    (∃ a, s' = (_player_at_exit (touch_clock now s) a).1) := by
  unfold proses_string at hrun
  cases hps : pySplit line with
  | nil => rw [hps] at hrun; cases hrun
  | cons c args =>
    rw [hps] at hrun
    dsimp only at hrun
    have hnr' := hnr c args hps
    rw [Option.some_inj] at hrun
    have hs' : s' = (Prod.fst (s', r)) := rfl
    rw [← hrun] at hs'
    clear hrun
    by_cases h1 : pyLower c = "register_player"
    · rw [if_pos h1] at hs'
      cases args with
      | nil => exact Or.inl hs'
      | cons a rest => exact Or.inr (Or.inl ⟨a, hs'⟩)
    · rw [if_neg h1] at hs'
      by_cases h2 : pyLower c = "set_player_state"
      · rw [if_pos h2] at hs'
        rcases args with _ | ⟨a0, _ | ⟨a1, _ | ⟨a2, _ | ⟨a3, _ | ⟨a4, rest⟩⟩⟩⟩⟩
        · exact Or.inl hs'
        · exact Or.inl hs'
        · exact Or.inl hs'
        · exact Or.inl hs'
        · dsimp only at hs'
          cases e1 : pyInt a1 with
          | none => rw [e1] at hs'; exact Or.inl hs'
          | some x =>
            cases e2 : pyInt a2 with
            | none => rw [e1, e2] at hs'; exact Or.inl hs'
            | some y =>
              cases e3 : pyInt a3 with
              | none => rw [e1, e2, e3] at hs'; exact Or.inl hs'
              | some lv =>
                rw [e1, e2, e3] at hs'
                exact Or.inr (Or.inr (Or.inl ⟨a0, x, y, lv, hs'⟩))
        · exact Or.inl hs'
      · rw [if_neg h2] at hs'
        by_cases h3 : pyLower c = "get_game_state"
        · rw [if_pos h3] at hs'; exact Or.inl hs'
        · rw [if_neg h3] at hs'
          by_cases h4 : pyLower c = "get_player_info"
          · rw [if_pos h4] at hs'
            cases args with
            | nil => exact Or.inl hs'
            | cons a rest => exact Or.inl hs'
          · rw [if_neg h4] at hs'
            by_cases h5 : pyLower c = "collect_gem"
            · rw [if_pos h5] at hs'
              rcases args with _ | ⟨a0, _ | ⟨a1, _ | ⟨a2, rest⟩⟩⟩
              · exact Or.inl hs'
              · exact Or.inl hs'
              · exact Or.inr (Or.inr (Or.inr (Or.inl ⟨a0, a1, hs'⟩)))
              · exact Or.inl hs'
            · rw [if_neg h5] at hs'
              by_cases h6 : pyLower c = "check_hazard_collision"
              · rw [if_pos h6] at hs'
                rcases args with _ | ⟨a0, _ | ⟨a1, _ | ⟨a2, rest⟩⟩⟩
                · exact Or.inl hs'
                · exact Or.inl hs'
                · exact Or.inr (Or.inr (Or.inr (Or.inr (Or.inl ⟨a0, a1, hs'⟩))))
                · exact Or.inl hs'
              · rw [if_neg h6] at hs'
                by_cases h7 : pyLower c = "player_at_exit"
                · rw [if_pos h7] at hs'
                  cases args with
                  | nil => exact Or.inl hs'
                  | cons a rest =>
                    exact Or.inr (Or.inr (Or.inr (Or.inr (Or.inr ⟨a, hs'⟩))))
                · rw [if_neg h7] at hs'
                  rw [if_neg hnr'] at hs'
                  exact Or.inl hs'

/-- A gem id absent from the state stays absent across any single
non-`reset_game` command (only a stage load re-creates gem ids). -/
theorem proses_string_keeps_gem_absent (s : GameState) (now : Nat) (line : String)
    (s' : GameState) (r : Resp) (gid : String)
    (hrun : proses_string s now line = some (s', r))
    (hnr : ∀ c args, pySplit line = c :: args → pyLower c ≠ "reset_game")
    (habs : alist_find s.gems gid = none) :
    alist_find s'.gems gid = none := by
  have htc : (touch_clock now s).gems = s.gems := (touch_clock_keeps now s).2.2
  rcases proses_string_frame s now line s' r hrun hnr with
    h | ⟨a, h⟩ | ⟨a, x, y, lv, h⟩ | ⟨a, b, h⟩ | ⟨a, b, h⟩ | ⟨a, h⟩ <;> rw [h]
  · rw [htc]; exact habs
  · rw [(_register_player_keeps _ _ _).2.2, htc]; exact habs
  · rw [(_set_player_state_keeps _ _ _ _ _).2.2, htc]; exact habs
  · rcases _collect_gem_gems (touch_clock now s) a b with hg | hg
    · rw [hg, htc]; exact habs
    · rw [hg]
      exact alist_find_none_del _ _ _ (by rw [htc]; exact habs)
  · rw [(_check_hazard_collision_keeps _ _ _).2.2, htc]; exact habs
  · rw [(_player_at_exit_keeps _ _).2.2, htc]; exact habs

/-- Claim C5: after loading any stage i, each color's required-gem
counter equals the number of that color's collectibles in stage i's
definition, whatever the previous counts were; and no command other
than reset_game (the only synchronous stage load) changes the counters
mid-stage. -/
theorem required_gems_from_level_definition :
    (∀ s i, (hi : i < levels.length) →
       (_load_level s i).black_gems_required =
         ((levels.get ⟨i, hi⟩).gems.filter (fun g => g.1 = Color.black)).length ∧
       (_load_level s i).white_gems_required =
         ((levels.get ⟨i, hi⟩).gems.filter (fun g => g.1 = Color.white)).length) ∧
    (∀ s now line s' r, proses_string s now line = some (s', r) →
       (∀ c args, pySplit line = c :: args → pyLower c ≠ "reset_game") →
       s'.black_gems_required = s.black_gems_required ∧
       s'.white_gems_required = s.white_gems_required) := by
  constructor
  · intro s i hi
    have hi5 : i < 5 := hi
    interval_cases i <;> exact ⟨rfl, rfl⟩
  · intro s now line s' r hrun hnr
    have htc1 : (touch_clock now s).black_gems_required = s.black_gems_required :=
      (touch_clock_keeps now s).1
    have htc2 : (touch_clock now s).white_gems_required = s.white_gems_required :=
      (touch_clock_keeps now s).2.1
    rcases proses_string_frame s now line s' r hrun hnr with
      h | ⟨a, h⟩ | ⟨a, x, y, lv, h⟩ | ⟨a, b, h⟩ | ⟨a, b, h⟩ | ⟨a, h⟩ <;> rw [h]
    · exact ⟨htc1, htc2⟩
    · exact ⟨(_register_player_keeps _ _ _).1.trans htc1,
             (_register_player_keeps _ _ _).2.1.trans htc2⟩
    · exact ⟨(_set_player_state_keeps _ _ _ _ _).1.trans htc1,
             (_set_player_state_keeps _ _ _ _ _).2.1.trans htc2⟩
    · exact ⟨(_collect_gem_keeps _ _ _).1.trans htc1,
             (_collect_gem_keeps _ _ _).2.trans htc2⟩
    · exact ⟨(_check_hazard_collision_keeps _ _ _).1.trans htc1,
             (_check_hazard_collision_keeps _ _ _).2.1.trans htc2⟩
    · exact ⟨(_player_at_exit_keeps _ _).1.trans htc1,
             (_player_at_exit_keeps _ _).2.1.trans htc2⟩

theorem required_gems_from_level_definition_witness :
    ((_load_level initState 2).black_gems_required =
       ((levels.get ⟨2, by decide⟩).gems.filter (fun g => g.1 = Color.black)).length ∧
     (_load_level initState 2).white_gems_required =
       ((levels.get ⟨2, by decide⟩).gems.filter (fun g => g.1 = Color.white)).length) ∧
    ((_collect_gem (touch_clock 5 regBWState) "player_black" "black_gem_0").1).black_gems_required =
      regBWState.black_gems_required :=
  ⟨required_gems_from_level_definition.1 initState 2 (by decide),
   (required_gems_from_level_definition.2 regBWState 5 "collect_gem player_black black_gem_0"
      _ _ rfl (by
        intro c args hca
        rw [show pySplit "collect_gem player_black black_gem_0" =
              ["collect_gem", "player_black", "black_gem_0"] from rfl] at hca
        injection hca with h1 _
        subst h1
        decide)).1⟩

theorem alist_find_none_forall {β : Type} (l : List (String × β)) (k : String)
    (h : alist_find l k = none) : ∀ e ∈ l, e.1 ≠ k := by
  induction l with
  | nil => intro e he; cases he
  | cons e es ih =>
    rw [alist_find] at h
    by_cases he : e.1 = k
    · rw [if_pos he] at h; cases h
    · rw [if_neg he] at h
      intro e' he'
      rcases List.mem_cons.mp he' with rfl | he'
      · exact he
      · exact ih h e' he'

theorem lookupPlayer_update_other (s : GameState) (pid qid : String) (p' : PlayerData)
    (h : qid ≠ pid) :
    lookupPlayer (updatePlayer s pid p') qid = lookupPlayer s qid := by
  unfold lookupPlayer updatePlayer
  by_cases hb : pid = "player_black" <;> by_cases hw : pid = "player_white" <;>
    by_cases qb : qid = "player_black" <;> by_cases qw : qid = "player_white" <;>
    simp_all

/-- Claim C6: a successful `collect_gem` (matching colors, stage and
match undecided) returns OK, removes the gem — it is absent from the
post state and from every `get_game_state` snapshot until a stage
load — and increments exactly the collecting player's counter, in the
same atomic command; a second `collect_gem` for the same id returns
ERROR and changes nothing. -/
theorem collect_gem_success_spec (s : GameState) (now : Nat) (pid gid : String)
    (p : PlayerData) (g : Gem)
    (hmw : s.match_winner = none) (hsw : s.stage_winner = none)
    (hp : lookupPlayer s pid = some p) (hg : alist_find s.gems gid = some g)
    (hc : p.color_type = g.type) :
    ((_collect_gem s pid gid).2).status = "OK" ∧
    alist_find ((_collect_gem s pid gid).1).gems gid = none ∧
    (∀ e ∈ (_get_game_state ((_collect_gem s pid gid).1) now).gems, e.1 ≠ gid) ∧
    lookupPlayer ((_collect_gem s pid gid).1) pid =
      some { p with gems_collected := p.gems_collected + 1 } ∧
    (∀ qid, qid ≠ pid →
       lookupPlayer ((_collect_gem s pid gid).1) qid = lookupPlayer s qid) ∧
    _collect_gem ((_collect_gem s pid gid).1) pid gid =
      ((_collect_gem s pid gid).1, { status := "ERROR" }) ∧
    (∀ now' line s'' r,
       proses_string ((_collect_gem s pid gid).1) now' line = some (s'', r) →
       (∀ c args, pySplit line = c :: args → pyLower c ≠ "reset_game") →
       alist_find s''.gems gid = none) := by
  set u := updatePlayer s pid { p with gems_collected := p.gems_collected + 1 } with hu
  obtain ⟨k1, k2, k3, k4, k5, k6, k7, k8, k9, k10⟩ :=
    updatePlayer_keeps s pid { p with gems_collected := p.gems_collected + 1 }
  have hstep : _collect_gem s pid gid =
      ({ u with gems := alist_del u.gems gid }, { status := "OK" }) := by
    unfold _collect_gem
    rw [hmw, hsw]
    simp only [Option.isSome_none, Bool.or_self, Bool.false_eq_true, if_false, hp, hg]
    rw [if_pos hc]
  rw [hstep]
  dsimp only
  have hfind : alist_find (alist_del u.gems gid) gid = none := alist_find_del_self _ _
  have hlp : lookupPlayer { u with gems := alist_del u.gems gid } pid =
      some { p with gems_collected := p.gems_collected + 1 } := by
    rw [lookupPlayer_congr { u with gems := alist_del u.gems gid } u pid rfl rfl, hu]
    exact lookupPlayer_update_self s pid _ (by rw [hp]; rfl)
  refine ⟨rfl, hfind, ?_, hlp, ?_, ?_, ?_⟩
  · intro e he
    exact alist_find_none_forall _ _ hfind e he
  · intro qid hq
    rw [lookupPlayer_congr { u with gems := alist_del u.gems gid } u qid rfl rfl, hu]
    exact lookupPlayer_update_other s pid qid _ hq
  · have hcond : ¬ ((u.match_winner.isSome || u.stage_winner.isSome) = true) := by
      rw [k5.trans hmw, k4.trans hsw]
      simp
    unfold _collect_gem
    dsimp only
    rw [if_neg hcond, hlp, hfind]
  · intro now' line s'' r hrun hnr
    exact proses_string_keeps_gem_absent _ now' line s'' r gid hrun hnr hfind

theorem collect_gem_success_spec_witness :
    ((_collect_gem regBWState "player_black" "black_gem_0").2).status = "OK" ∧
    alist_find ((_collect_gem regBWState "player_black" "black_gem_0").1).gems
      "black_gem_0" = none ∧
    lookupPlayer ((_collect_gem regBWState "player_black" "black_gem_0").1) "player_black" =
      some { color_type := Color.black, x := 50, y := 532, lives := 1,
             gems_collected := 1, at_exit := false } ∧
    (_collect_gem ((_collect_gem regBWState "player_black" "black_gem_0").1)
        "player_black" "black_gem_0").2.status = "ERROR" :=
  ⟨(collect_gem_success_spec regBWState 5 "player_black" "black_gem_0"
      { color_type := Color.black, x := 50, y := 532, lives := 1, gems_collected := 0, at_exit := false }
      { x := 250, y := 450, type := Color.black }
      (by decide) (by decide) (by decide) (by decide) (by decide)).1,
   (collect_gem_success_spec regBWState 5 "player_black" "black_gem_0"
      { color_type := Color.black, x := 50, y := 532, lives := 1, gems_collected := 0, at_exit := false }
      { x := 250, y := 450, type := Color.black }
      (by decide) (by decide) (by decide) (by decide) (by decide)).2.1,
   (collect_gem_success_spec regBWState 5 "player_black" "black_gem_0"
      { color_type := Color.black, x := 50, y := 532, lives := 1, gems_collected := 0, at_exit := false }
      { x := 250, y := 450, type := Color.black }
      (by decide) (by decide) (by decide) (by decide) (by decide)).2.2.2.1,
   congrArg Resp.status (congrArg Prod.snd
     ((collect_gem_success_spec regBWState 5 "player_black" "black_gem_0"
        { color_type := Color.black, x := 50, y := 532, lives := 1, gems_collected := 0, at_exit := false }
        { x := 250, y := 450, type := Color.black }
        (by decide) (by decide) (by decide) (by decide) (by decide)).2.2.2.2.2.1))⟩

theorem touch_clock_noop (now : Nat) (s : GameState)
    (h : (s.playerBlack = none ∧ s.playerWhite = none) ∨ s.start_time ≠ none) :
    touch_clock now s = s := by
  rcases h with ⟨hb, hw⟩ | hst
  · unfold touch_clock playersCount
    rw [hb, hw]
    simp
  · unfold touch_clock
    rw [if_neg]
    rintro ⟨h1, _⟩
    exact hst (Option.isNone_iff_eq_none.mp h1)

/-- Counterexample to claim C9 as stated: on an empty or
whitespace-only line `proses_string` evaluates `parts[0]` of an empty
list and raises IndexError (modelled as `none`) — no ERROR response is
produced. -/
theorem empty_line_raises :
    proses_string initState 0 "" = none ∧ proses_string initState 0 "   " = none :=
  ⟨rfl, rfl⟩

/-- Claim C9 (amended): every line that still has a token after
stripping is answered without an exception, and if it is malformed —
unknown command name, fewer arguments than required (surplus arguments
to register_player / get_player_info / player_at_exit are ignored, not
rejected), or a non-numeric numeric argument — the response status is
ERROR and the state is left at `touch_clock now s`, which is `s`
itself whenever the clock already runs or no player is registered
(true in every reachable state).  An empty/whitespace-only line
instead raises IndexError. -/
theorem malformed_line_rejected (s : GameState) (now : Nat) (line : String)
    (c : String) (args : List String) (hps : pySplit line = c :: args) :
    (∃ out, proses_string s now line = some out) ∧
    (malformedLine line = true →
       ∃ r, proses_string s now line = some (touch_clock now s, r) ∧
         r.status = "ERROR" ∧
         ((s.playerBlack = none ∧ s.playerWhite = none) ∨ s.start_time ≠ none →
            touch_clock now s = s)) := by
  constructor
  · exact ⟨_, by unfold proses_string; rw [hps]⟩
  · intro hm
    unfold malformedLine at hm
    rw [hps] at hm
    dsimp only at hm
    unfold proses_string
    rw [hps]
    dsimp only
    by_cases h1 : pyLower c = "register_player"
    · rw [if_pos h1] at hm ⊢
      rw [List.isEmpty_iff] at hm
      subst hm
      exact ⟨_, rfl, rfl, touch_clock_noop now s⟩
    · rw [if_neg h1] at hm ⊢
      by_cases h2 : pyLower c = "set_player_state"
      · rw [if_pos h2] at hm ⊢
        rcases args with _ | ⟨a0, _ | ⟨a1, _ | ⟨a2, _ | ⟨a3, _ | ⟨a4, rest⟩⟩⟩⟩⟩
        · exact ⟨_, rfl, rfl, touch_clock_noop now s⟩
        · exact ⟨_, rfl, rfl, touch_clock_noop now s⟩
        · exact ⟨_, rfl, rfl, touch_clock_noop now s⟩
        · exact ⟨_, rfl, rfl, touch_clock_noop now s⟩
        · dsimp only at hm ⊢
          cases e1 : pyInt a1 with
          | none =>
            exact ⟨_, rfl, rfl, touch_clock_noop now s⟩
          | some x =>
            cases e2 : pyInt a2 with
            | none =>
              exact ⟨_, rfl, rfl, touch_clock_noop now s⟩
            | some y =>
              cases e3 : pyInt a3 with
              | none =>
                exact ⟨_, rfl, rfl, touch_clock_noop now s⟩
              | some lv =>
                rw [e1, e2, e3] at hm
                simp at hm
        · exact ⟨_, rfl, rfl, touch_clock_noop now s⟩
      · rw [if_neg h2] at hm ⊢
        by_cases h3 : pyLower c = "get_game_state"
        · rw [if_pos h3] at hm
          cases hm
        · rw [if_neg h3] at hm ⊢
          by_cases h4 : pyLower c = "get_player_info"
          · rw [if_pos h4] at hm ⊢
            rw [List.isEmpty_iff] at hm
            subst hm
            exact ⟨_, rfl, rfl, touch_clock_noop now s⟩
          · rw [if_neg h4] at hm ⊢
            by_cases h5 : pyLower c = "collect_gem"
            · rw [if_pos h5] at hm ⊢
              rw [decide_eq_true_iff] at hm
              rcases args with _ | ⟨a0, _ | ⟨a1, _ | ⟨a2, rest⟩⟩⟩
              · exact ⟨_, rfl, rfl, touch_clock_noop now s⟩
              · exact ⟨_, rfl, rfl, touch_clock_noop now s⟩
              · simp at hm
              · exact ⟨_, rfl, rfl, touch_clock_noop now s⟩
            · rw [if_neg h5] at hm ⊢
              by_cases h6 : pyLower c = "check_hazard_collision"
              · rw [if_pos h6] at hm ⊢
                rw [decide_eq_true_iff] at hm
                rcases args with _ | ⟨a0, _ | ⟨a1, _ | ⟨a2, rest⟩⟩⟩
                · exact ⟨_, rfl, rfl, touch_clock_noop now s⟩
                · exact ⟨_, rfl, rfl, touch_clock_noop now s⟩
                · simp at hm
                · exact ⟨_, rfl, rfl, touch_clock_noop now s⟩
              · rw [if_neg h6] at hm ⊢
                by_cases h7 : pyLower c = "player_at_exit"
                · rw [if_pos h7] at hm ⊢
                  rw [List.isEmpty_iff] at hm
                  subst hm
                  exact ⟨_, rfl, rfl, touch_clock_noop now s⟩
                · rw [if_neg h7] at hm ⊢
                  by_cases h8 : pyLower c = "reset_game"
                  · rw [if_pos h8] at hm
                    cases hm
                  · rw [if_neg h8] at hm ⊢
                    exact ⟨_, rfl, rfl, touch_clock_noop now s⟩

theorem malformed_line_rejected_witness :
    ∃ r, proses_string initState 0 "warp_to_stage 3" = some (touch_clock 0 initState, r) ∧
      r.status = "ERROR" ∧
      ((initState.playerBlack = none ∧ initState.playerWhite = none) ∨
          initState.start_time ≠ none →
        touch_clock 0 initState = initState) :=
  (malformed_line_rejected initState 0 "warp_to_stage 3" "warp_to_stage" ["3"] rfl).2
    (by decide)

end FpProgjar
